import Mathlib

/-!
Shallow embedding of the Nova projector chat-bot gateway:
- `shuffle` / `fetchWithRotatedKey` embed the credential-rotation dispatcher
  (src: fetchWithRotatedKey.ts).
- `getIP` / `checkRateLimit` / `POST` embed the Next.js route handler
  (src: app/api/chat/route).
Randomness is passed in explicitly (`js : Nat → Nat` supplies the values
`Math.floor(Math.random() * (i + 1))` used by the Fisher-Yates loop), the
Redis store is a function `String → Option Entry`, and the upstream network
is an oracle `call : String → List ChatMessage → CallResult`.
-/

namespace Nova

/-- A chat message `{role, content}`. -/
structure ChatMessage where
  role : String
  content : String
deriving DecidableEq, Repr

/-- The JSON body returned by a successful (2xx) upstream call:
`reply` models `data.choices?.[0]?.message?.content` (`none` when the reply
lacks an assistant message, `some ""` when the content is the empty string). -/
structure UpstreamData where
  reply : Option String
deriving DecidableEq, Repr

/-- Outcome of one `axios.post` with one key: `ok data` is a 2xx response,
`fail cause` models a thrown error (network failure or non-2xx status) whose
`err.message` is `cause`. -/
inductive CallResult where
  | ok (data : UpstreamData)
  | fail (cause : String)
deriving DecidableEq, Repr

/-- `[array[i], array[j]] = [array[j], array[i]]` on a list:
read both old values, then write them back swapped. Out-of-range indices
leave the list unchanged (the source loop only produces in-range indices). -/
def listSwap {α : Type} (l : List α) (i j : Nat) : List α :=
  match l[i]?, l[j]? with
  | some a, some b => (l.set i b).set j a
  | _, _ => l

/-- The Fisher-Yates loop `for (let i = length-1; i > 0; i--) swap(i, js i)`,
recursing on the loop counter `i`. -/
def shuffleAux {α : Type} (l : List α) (i : Nat) (js : Nat → Nat) : List α :=
  match i with
  | 0 => l
  | Nat.succ n => shuffleAux (listSwap l (n + 1) (js (n + 1))) n js

/-- `shuffle` from fetchWithRotatedKey.ts: Fisher-Yates over the whole list,
with the random draw at index `i` supplied by `js i`. -/
def shuffle {α : Type} (l : List α) (js : Nat → Nat) : List α :=
  shuffleAux l (l.length - 1) js

/-- `maxTokens || 5000`: JS `||` takes the default when the value is absent
(undefined) or `0` (falsy). -/
def jsOrDefault (m : Option Nat) : Nat :=
  match m with
  | none => 5000
  | some 0 => 5000
  | some k => k

instance {ε α : Type} [DecidableEq ε] [DecidableEq α] : DecidableEq (Except ε α) := fun
  | Except.error a, Except.error b =>
    if h : a = b then Decidable.isTrue (by rw [h]) else Decidable.isFalse (by simp [h])
  | Except.error _, Except.ok _ => Decidable.isFalse (by simp)
  | Except.ok _, Except.error _ => Decidable.isFalse (by simp)
  | Except.ok a, Except.ok b =>
    if h : a = b then Decidable.isTrue (by rw [h]) else Decidable.isFalse (by simp [h])

/-- What one run of `fetchWithRotatedKey` did: the keys attempted in order,
the `console.warn` lines emitted, and the returned data or thrown error. -/
structure FetchOutcome where
  attempts : List String
  logs : List String
  result : Except String UpstreamData
deriving DecidableEq, Repr

/-- The `for (const key of shuffledKeys)` loop body: on a 2xx response return
`response.data` at once; on a thrown error log
`Key failed: ${key}, retrying...` with `err.message` and continue; when the
list is exhausted throw `All keys failed. Please try again later.`. -/
def fetchLoop (call : String → List ChatMessage → CallResult)
    (messages : List ChatMessage) : List String → FetchOutcome
  | [] => ⟨[], [], Except.error "All keys failed. Please try again later."⟩
  | k :: ks =>
    match call k messages with
    | CallResult.ok d => ⟨[k], [], Except.ok d⟩
    | CallResult.fail cause =>
      let rest := fetchLoop call messages ks
      ⟨k :: rest.attempts,
       ("Key failed: " ++ k ++ ", retrying... " ++ cause) :: rest.logs,
       rest.result⟩

/-- `fetchWithRotatedKey({messages, maxTokens})`: copy and shuffle the key
pool, then try the keys in the shuffled order (the request body also carries
`maxTokens || 5000`, reflected in the oracle's `call` argument being applied
to the same `messages` each time; `maxTokens` does not affect control flow). -/
def fetchWithRotatedKey (keys : List String) (js : Nat → Nat)
    (call : String → List ChatMessage → CallResult)
    (messages : List ChatMessage) : FetchOutcome :=
  fetchLoop call messages (shuffle keys js)

/-- One Redis record: the stored counter value and, when the key was set
with `ex`, its absolute expiry time (Redis `INCR` on a missing key creates a
persistent record, hence the `Option`). -/
structure Entry where
  count : Nat
  expiry : Option Nat
deriving DecidableEq, Repr

/-- The Redis store, keyed by the full `AIDemoUsage:<ip>` string. -/
def Store : Type := String → Option Entry

/-- `redis.set(k, v, { ex })` with an absolute expiry time. -/
def redisSetEx (s : Store) (k : String) (v : Nat) (e : Nat) : Store :=
  fun q => if q = k then some ⟨v, some e⟩ else s q

/-- `redis.incr(k)`: increments the stored value keeping its expiry;
a missing key is created at 1 with no expiry. -/
def redisIncr (s : Store) (k : String) : Store :=
  fun q =>
    if q = k then
      match s k with
      | none => some ⟨1, none⟩
      | some en => some ⟨en.count + 1, en.expiry⟩
    else s q

def IP_LIMIT : Nat := 100

/-- The inbound request: the `x-forwarded-for` header (if present) and the
JSON body's `messages` field (`none` models a falsy field — absent or null;
an empty array is `some []`, which is truthy in JS). -/
structure Request where
  xForwardedFor : Option String
  messages : Option (List ChatMessage)
deriving DecidableEq, Repr

/-- The characters before the first occurrence of `sep`:
`s.split(sep)[0]` at the character level (on `""` JS gives `[""]`, so the
first piece is again the empty string, matching the `[]` base case). -/
def splitFirst (sep : Char) : List Char → List Char
  | [] => []
  | c :: cs => if c = sep then [] else c :: splitFirst sep cs

/-- Drop leading whitespace characters. -/
def dropLeadingWs : List Char → List Char
  | [] => []
  | c :: cs => if c.isWhitespace then dropLeadingWs cs else c :: cs

/-- `.trim()`: strip whitespace from both ends. -/
def jsTrim (s : String) : String :=
  ⟨(dropLeadingWs ((dropLeadingWs s.data).reverse)).reverse⟩

/-- `getIP`: `(req.headers.get("x-forwarded-for") || "").toString().split(",")[0].trim()`. -/
def getIP (req : Request) : String :=
  jsTrim ⟨splitFirst ',' (req.xForwardedFor.getD "").data⟩

/-- The Redis key used for a request's quota record. -/
def rlKey (req : Request) : String :=
  "AIDemoUsage:" ++ getIP req

/-- JS `used >= IP_LIMIT` where `used` is the Redis value or null:
`null >= n` is false. -/
def jsGE (used : Option Nat) (n : Nat) : Bool :=
  match used with
  | none => false
  | some c => n ≤ c

/-- JS `!used`: null and 0 are falsy. -/
def jsFalsy (used : Option Nat) : Bool :=
  match used with
  | none => true
  | some c => c = 0

/-- The `checkRateLimit` return object. -/
structure RateDecision where
  allowed : Bool
  reason : Option String
  status : Nat
  new : Bool
deriving DecidableEq, Repr

/-- `checkRateLimit(req)`: read `AIDemoUsage:<ip>`; if `used >= IP_LIMIT`
deny with a 429 message; else if `used` is falsy allow marking a new window;
else allow within the existing window. -/
def checkRateLimit (store : Store) (req : Request) : RateDecision :=
  let used : Option Nat := (store (rlKey req)).map Entry.count
  if jsGE used IP_LIMIT then
    ⟨false, some "AI usage limit reached. Get full access when we launch.", 429, false⟩
  else if jsFalsy used then
    ⟨true, none, 200, true⟩
  else
    ⟨true, none, 200, false⟩

/-- The fixed system instruction message prepended to every conversation. -/
def systemPrompt : ChatMessage :=
  ⟨"system",
   "You are a friendly, engaging AI assistant named Nova, created for a school technology showcase. \nYour goal is to give clear, concise, and interesting responses that are fun to watch on a projector. \nAlways greet users warmly, answer in a way that keeps the audience engaged, and adapt your tone to be \nenthusiastic yet professional. Use occasional emojis to add visual flair (but no more than 2 per message). \nAvoid controversial or inappropriate topics, and always keep your responses school-safe.\n\nWhen explaining concepts, keep sentences short, use bullet points when helpful, and occasionally \ngive fun facts related to the topic use emojis. If the user asks for something creative, make it colorful.\n\nEnd every answer with either:\n- a short follow-up question to keep the conversation going, OR\n- a quick suggestion for something else the user can ask.\n\n"⟩

/-- `payload.messages.slice(-5)`: the last `min 5 length` elements. -/
def sliceLast5 (msgs : List ChatMessage) : List ChatMessage :=
  msgs.drop (msgs.length - 5)

/-- `[systemPrompt, ...payload.messages.slice(-5)]`. -/
def mkChatHistory (msgs : List ChatMessage) : List ChatMessage :=
  systemPrompt :: sliceLast5 msgs

/-- JS `!reply` on `data.choices?.[0]?.message?.content`: falsy when the
optional chain came up empty or the content is the empty string. -/
def jsStrFalsy (r : Option String) : Bool :=
  match r with
  | none => true
  | some s => s = ""

/-- `ex: 3600 * 24 * 2` — the quota window length in seconds. -/
def WINDOW_EX : Nat := 3600 * 24 * 2

/-- A `NextResponse.json` payload together with its HTTP status
(`NextResponse.json` without an init defaults to 200). -/
structure Response where
  role : String
  content : String
  status : Nat
deriving DecidableEq, Repr

/-- Everything one `POST` invocation did: the response, the Redis store
afterwards, the keys attempted upstream, the dispatcher's log lines, and the
conversation sent upstream (`none` when no dispatch happened). -/
structure PostOutcome where
  response : Response
  store : Store
  upstreamAttempts : List String
  logs : List String
  sent : Option (List ChatMessage)

/-- The route handler `POST(request)`. Order is the source's: rate limit
first, then the falsy-`messages` check, then augment + dispatch; on a truthy
reply commit the quota (`set` 1 with expiry for a new window, `incr`
otherwise) and answer 200; a falsy reply answers the error payload
`No response received` (default status 200); a thrown dispatch error is
caught and answered as 500. -/
def POST (store : Store) (now : Nat) (js : Nat → Nat) (keys : List String)
    (call : String → List ChatMessage → CallResult) (req : Request) : PostOutcome :=
  let limit := checkRateLimit store req
  if !limit.allowed then
    ⟨⟨"error", limit.reason.getD "", limit.status⟩, store, [], [], none⟩
  else
    match req.messages with
    | none => ⟨⟨"error", "No messages provided", 400⟩, store, [], [], none⟩
    | some msgs =>
      let chatHistory := mkChatHistory msgs
      let out := fetchWithRotatedKey keys js call chatHistory
      match out.result with
      | Except.error _ =>
        ⟨⟨"error", "Some internal error occurred. Please try again later.", 500⟩,
         store, out.attempts, out.logs, some chatHistory⟩
      | Except.ok data =>
        if jsStrFalsy data.reply then
          ⟨⟨"error", "No response received", 200⟩,
           store, out.attempts, out.logs, some chatHistory⟩
        else
          let store' :=
            if limit.new then
              redisSetEx store (rlKey req) 1 (now + WINDOW_EX)
            else
              redisIncr store (rlKey req)
          ⟨⟨"assistant", (data.reply).getD "", 200⟩,
           store', out.attempts, out.logs, some chatHistory⟩

/-! ### Helper lemmas: the Fisher-Yates shuffle is a permutation -/

theorem count_set_add {α : Type} [DecidableEq α] (l : List α) (i : Nat) (a b x : α)
    (h : l[i]? = some b) :
    (l.set i a).count x + (if b = x then 1 else 0)
      = l.count x + (if a = x then 1 else 0) := by
  induction l generalizing i with
  | nil => simp at h
  | cons c t ih =>
    cases i with
    | zero =>
      rw [List.getElem?_cons_zero] at h
      injection h with h
      subst h
      simp only [List.set_cons_zero, List.count_cons, beq_iff_eq]
      split <;> split <;> simp_all
    | succ n =>
      rw [List.getElem?_cons_succ] at h
      simp only [List.set_cons_succ, List.count_cons, beq_iff_eq]
      have e := ih n h
      split <;> omega

theorem listSwap_count {α : Type} [DecidableEq α] (l : List α) (i j : Nat) (x : α) :
    (listSwap l i j).count x = l.count x := by
  unfold listSwap
  cases hi : l[i]? with
  | none => rfl
  | some a =>
    cases hj : l[j]? with
    | none => rfl
    | some b =>
      have hb : (l.set i b)[j]? = some b := by
        by_cases hij : i = j
        · subst hij
          have hlen : i < l.length := (List.getElem?_eq_some.mp hi).1
          exact List.getElem?_set_self hlen
        · rw [List.getElem?_set_ne hij]
          exact hj
      have e1 := count_set_add (l.set i b) j a b x hb
      have e2 := count_set_add l i b a x hi
      simp only []
      split_ifs at e1 e2 <;> omega

theorem listSwap_perm {α : Type} [DecidableEq α] (l : List α) (i j : Nat) :
    List.Perm (listSwap l i j) l :=
  List.perm_iff_count.mpr (fun x => listSwap_count l i j x)

theorem shuffleAux_perm {α : Type} [DecidableEq α] (l : List α) (i : Nat) (js : Nat → Nat) :
    List.Perm (shuffleAux l i js) l := by
  induction i generalizing l with
  | zero => exact List.Perm.refl l
  | succ n ih =>
    simp only [shuffleAux]
    exact (ih _).trans (listSwap_perm l (n + 1) (js (n + 1)))

/-- The shuffled key order is a permutation of the pool. -/
theorem shuffle_perm {α : Type} [DecidableEq α] (l : List α) (js : Nat → Nat) :
    List.Perm (shuffle l js) l :=
  shuffleAux_perm l (l.length - 1) js

/-! ### Helper lemmas: the failover loop -/

/-- Whether one upstream call returned a 2xx response. -/
def isOkCall (c : CallResult) : Bool :=
  match c with
  | CallResult.ok _ => true
  | CallResult.fail _ => false

theorem fetchLoop_attempts_front (call : String → List ChatMessage → CallResult)
    (msgs : List ChatMessage) (ks : List String) :
    (fetchLoop call msgs ks).attempts <+: ks := by
  induction ks with
  | nil => exact ⟨[], rfl⟩
  | cons k t ih =>
    simp only [fetchLoop]
    cases call k msgs with
    | ok d => exact ⟨t, rfl⟩
    | fail c =>
      obtain ⟨r, hr⟩ := ih
      exact ⟨r, by simp [hr]⟩

theorem fetchLoop_succ_le_one (call : String → List ChatMessage → CallResult)
    (msgs : List ChatMessage) (ks : List String) :
    (fetchLoop call msgs ks).attempts.countP (fun k => isOkCall (call k msgs)) ≤ 1 := by
  induction ks with
  | nil => simp [fetchLoop]
  | cons k t ih =>
    simp only [fetchLoop]
    cases hc : call k msgs with
    | ok d => simp [List.countP_cons, isOkCall, hc]
    | fail c =>
      simp only [List.countP_cons, isOkCall, hc]
      simpa using ih

/-! ### Helper lemmas: the rate limiter -/

/-- The count stored in an optional Redis record (0 when absent). -/
def entryCount (o : Option Entry) : Nat :=
  match o with
  | none => 0
  | some e => e.count

theorem checkRateLimit_denied (store : Store) (req : Request)
    (h : (checkRateLimit store req).allowed = false) :
    checkRateLimit store req
      = ⟨false, some "AI usage limit reached. Get full access when we launch.", 429, false⟩ := by
  unfold checkRateLimit at h ⊢
  cases hrec : store (rlKey req) with
  | none => simp [hrec, jsGE, jsFalsy] at h ⊢
  | some en =>
    simp only [hrec, Option.map_some] at h ⊢
    by_cases hge : jsGE (some en.count) IP_LIMIT = true
    · simp [hge]
    · simp [hge] at h ⊢
      split at h <;> simp_all

theorem checkRateLimit_new_count_zero (store : Store) (req : Request)
    (h : (checkRateLimit store req).new = true) :
    entryCount (store (rlKey req)) = 0 := by
  unfold checkRateLimit at h
  cases hrec : store (rlKey req) with
  | none => simp [entryCount]
  | some en =>
    simp only [hrec, Option.map_some] at h
    simp only [entryCount]
    split at h
    · simp at h
    · split at h
      · simpa [jsFalsy] using ‹jsFalsy (some en.count) = true›
      · simp at h

theorem checkRateLimit_allowed_lt (store : Store) (req : Request)
    (h : (checkRateLimit store req).allowed = true) :
    entryCount (store (rlKey req)) < IP_LIMIT := by
  unfold checkRateLimit at h
  cases hrec : store (rlKey req) with
  | none => simp [entryCount, IP_LIMIT]
  | some en =>
    simp only [hrec, Option.map_some] at h
    simp only [entryCount]
    split at h
    · simp at h
    · have : ¬ jsGE (some en.count) IP_LIMIT = true := by
        split at h <;> simp_all
      simpa [jsGE] using this

/-! ### Helper lemmas: reducing `POST` -/

theorem POST_of_denied (store : Store) (now : Nat) (js : Nat → Nat) (keys : List String)
    (call : String → List ChatMessage → CallResult) (req : Request)
    (h : (checkRateLimit store req).allowed = false) :
    POST store now js keys call req
      = ⟨⟨"error", "AI usage limit reached. Get full access when we launch.", 429⟩,
         store, [], [], none⟩ := by
  unfold POST
  simp only [checkRateLimit_denied store req h, Bool.not_false, if_true, Option.getD_some]

theorem POST_of_no_messages (store : Store) (now : Nat) (js : Nat → Nat) (keys : List String)
    (call : String → List ChatMessage → CallResult) (req : Request)
    (hallow : (checkRateLimit store req).allowed = true)
    (hm : req.messages = none) :
    POST store now js keys call req
      = ⟨⟨"error", "No messages provided", 400⟩, store, [], [], none⟩ := by
  unfold POST
  simp only [hm, hallow, Bool.not_true, Bool.false_eq_true, if_false]

theorem POST_of_dispatch_error (store : Store) (now : Nat) (js : Nat → Nat) (keys : List String)
    (call : String → List ChatMessage → CallResult) (req : Request) (msgs : List ChatMessage)
    (e : String)
    (hallow : (checkRateLimit store req).allowed = true)
    (hm : req.messages = some msgs)
    (hfail : (fetchWithRotatedKey keys js call (mkChatHistory msgs)).result = Except.error e) :
    POST store now js keys call req
      = ⟨⟨"error", "Some internal error occurred. Please try again later.", 500⟩,
         store,
         (fetchWithRotatedKey keys js call (mkChatHistory msgs)).attempts,
         (fetchWithRotatedKey keys js call (mkChatHistory msgs)).logs,
         some (mkChatHistory msgs)⟩ := by
  unfold POST
  simp only [hm, hallow, Bool.not_true, Bool.false_eq_true, if_false, hfail]

theorem POST_of_empty_reply (store : Store) (now : Nat) (js : Nat → Nat) (keys : List String)
    (call : String → List ChatMessage → CallResult) (req : Request) (msgs : List ChatMessage)
    (d : UpstreamData)
    (hallow : (checkRateLimit store req).allowed = true)
    (hm : req.messages = some msgs)
    (hok : (fetchWithRotatedKey keys js call (mkChatHistory msgs)).result = Except.ok d)
    (hrep : jsStrFalsy d.reply = true) :
    POST store now js keys call req
      = ⟨⟨"error", "No response received", 200⟩,
         store,
         (fetchWithRotatedKey keys js call (mkChatHistory msgs)).attempts,
         (fetchWithRotatedKey keys js call (mkChatHistory msgs)).logs,
         some (mkChatHistory msgs)⟩ := by
  unfold POST
  simp only [hm, hallow, Bool.not_true, Bool.false_eq_true, if_false, hok, hrep, if_true]

theorem POST_of_reply (store : Store) (now : Nat) (js : Nat → Nat) (keys : List String)
    (call : String → List ChatMessage → CallResult) (req : Request) (msgs : List ChatMessage)
    (d : UpstreamData)
    (hallow : (checkRateLimit store req).allowed = true)
    (hm : req.messages = some msgs)
    (hok : (fetchWithRotatedKey keys js call (mkChatHistory msgs)).result = Except.ok d)
    (hrep : jsStrFalsy d.reply = false) :
    POST store now js keys call req
      = ⟨⟨"assistant", (d.reply).getD "", 200⟩,
         (if (checkRateLimit store req).new then
            redisSetEx store (rlKey req) 1 (now + WINDOW_EX)
          else redisIncr store (rlKey req)),
         (fetchWithRotatedKey keys js call (mkChatHistory msgs)).attempts,
         (fetchWithRotatedKey keys js call (mkChatHistory msgs)).logs,
         some (mkChatHistory msgs)⟩ := by
  unfold POST
  simp only [hm, hallow, Bool.not_true, Bool.false_eq_true, if_false, hok, hrep]

/-! ### Helper lemmas: splitting on the first comma -/

theorem splitFirst_of_not_mem (a : List Char) (h : ',' ∉ a) :
    splitFirst ',' a = a := by
  induction a with
  | nil => rfl
  | cons c cs ih =>
    simp only [List.mem_cons, not_or] at h
    have hcne : ¬ (c = ',') := fun hc => h.1 hc.symm
    simp only [splitFirst, if_neg hcne, List.cons.injEq, true_and]
    exact ih h.2

theorem splitFirst_append (a b : List Char) (h : ',' ∉ a) :
    splitFirst ',' (a ++ ',' :: b) = a := by
  induction a with
  | nil => simp [splitFirst]
  | cons c cs ih =>
    simp only [List.mem_cons, not_or] at h
    have hcne : ¬ (c = ',') := fun hc => h.1 hc.symm
    simp only [List.cons_append, splitFirst, if_neg hcne, List.cons.injEq, true_and]
    exact ih h.2

/-! ### The claims -/

/-- C1 (code-bug evidence): a request whose `messages` array is empty is
not rejected with 400. `!payload.messages` is false for `[]` (an empty array
is truthy in JS), so the gateway dispatches upstream, commits quota on
success, and answers 200 — each point contradicting the claimed behavior. -/
theorem c1_empty_messages_not_rejected :
    (POST (fun _ => none) 0 (fun _ => 0) ["K1"]
        (fun _ _ => CallResult.ok ⟨some "Hello"⟩) ⟨none, some []⟩).response
      = ⟨"assistant", "Hello", 200⟩
    ∧ (POST (fun _ => none) 0 (fun _ => 0) ["K1"]
        (fun _ _ => CallResult.ok ⟨some "Hello"⟩) ⟨none, some []⟩).upstreamAttempts
      = ["K1"]
    ∧ (POST (fun _ => none) 0 (fun _ => 0) ["K1"]
        (fun _ _ => CallResult.ok ⟨some "Hello"⟩) ⟨none, some []⟩).store "AIDemoUsage:"
      = some ⟨1, some WINDOW_EX⟩ :=
  ⟨rfl, rfl, rfl⟩

/-- C2 (counterexample): a request with an empty conversation from a client
whose quota is exhausted is answered 429 (QuotaExceeded), not 400 — the
quota check runs before validation, not after. -/
theorem c2_counterexample :
    (POST (fun k => if k = "AIDemoUsage:" then some ⟨100, some 7⟩ else none) 0 (fun _ => 0)
        ["K1"] (fun _ _ => CallResult.ok ⟨some "Hello"⟩) ⟨none, some []⟩).response
      = ⟨"error", "AI usage limit reached. Get full access when we launch.", 429⟩
    ∧ (POST (fun k => if k = "AIDemoUsage:" then some ⟨100, some 7⟩ else none) 0 (fun _ => 0)
        ["K1"] (fun _ _ => CallResult.ok ⟨some "Hello"⟩) ⟨none, some []⟩).response.status
      ≠ 400 :=
  ⟨by decide, by decide⟩

/-- C2 (amended): the per-request state machine performs the quota check
first: a denied client is Rejected(QuotaExceeded, 429) with no store change
and no upstream call, regardless of the messages field; the 400
`No messages provided` rejection fires only for an allowed request whose
`messages` field is falsy (absent), again with no store change and no
upstream call. -/
theorem c2_amended_quota_check_first (store : Store) (now : Nat) (js : Nat → Nat)
    (keys : List String) (call : String → List ChatMessage → CallResult) (req : Request) :
    ((checkRateLimit store req).allowed = false →
      POST store now js keys call req
        = ⟨⟨"error", "AI usage limit reached. Get full access when we launch.", 429⟩,
           store, [], [], none⟩)
    ∧ ((checkRateLimit store req).allowed = true → req.messages = none →
      POST store now js keys call req
        = ⟨⟨"error", "No messages provided", 400⟩, store, [], [], none⟩) :=
  ⟨fun h => POST_of_denied store now js keys call req h,
   fun h hm => POST_of_no_messages store now js keys call req h hm⟩

theorem c2_amended_witness :
    POST (fun k => if k = "AIDemoUsage:" then some ⟨100, some 7⟩ else none) 0 (fun _ => 0)
        ["K1"] (fun _ _ => CallResult.ok ⟨some "Hello"⟩) ⟨none, some []⟩
      = ⟨⟨"error", "AI usage limit reached. Get full access when we launch.", 429⟩,
         (fun k => if k = "AIDemoUsage:" then some ⟨100, some 7⟩ else none), [], [], none⟩ :=
  (c2_amended_quota_check_first
      (fun k => if k = "AIDemoUsage:" then some ⟨100, some 7⟩ else none) 0 (fun _ => 0)
      ["K1"] (fun _ _ => CallResult.ok ⟨some "Hello"⟩) ⟨none, some []⟩).1 (by decide)

/-- C3: when dispatch fails (the key loop exhausts and throws), the handler
catches, answers the 500 internal-error payload, and performs no quota
commit — the store is unchanged at every key. -/
theorem c3_dispatch_failure_is_free (store : Store) (now : Nat) (js : Nat → Nat)
    (keys : List String) (call : String → List ChatMessage → CallResult)
    (req : Request) (msgs : List ChatMessage) (e : String)
    (hm : req.messages = some msgs)
    (hallow : (checkRateLimit store req).allowed = true)
    (hfail : (fetchWithRotatedKey keys js call (mkChatHistory msgs)).result = Except.error e) :
    (POST store now js keys call req).response
      = ⟨"error", "Some internal error occurred. Please try again later.", 500⟩
    ∧ ∀ k, (POST store now js keys call req).store k = store k := by
  rw [POST_of_dispatch_error store now js keys call req msgs e hallow hm hfail]
  exact ⟨rfl, fun k => rfl⟩

theorem c3_witness :
    (POST (fun _ => none) 0 (fun _ => 0) ["K1"] (fun _ _ => CallResult.fail "boom")
        ⟨none, some [⟨"user", "hi"⟩]⟩).response
      = ⟨"error", "Some internal error occurred. Please try again later.", 500⟩
    ∧ ∀ k, (POST (fun _ => none) 0 (fun _ => 0) ["K1"] (fun _ _ => CallResult.fail "boom")
        ⟨none, some [⟨"user", "hi"⟩]⟩).store k = (fun _ => none : Store) k :=
  c3_dispatch_failure_is_free (fun _ => none) 0 (fun _ => 0) ["K1"]
    (fun _ _ => CallResult.fail "boom") ⟨none, some [⟨"user", "hi"⟩]⟩ [⟨"user", "hi"⟩]
    "All keys failed. Please try again later." rfl rfl rfl

/-- C4: when some credential succeeds and a (truthy) reply is produced, the
client's usage count rises by exactly 1: a new window creates a record with
count 1 expiring at `now + windowDuration`; an existing window is
incremented with its expiry untouched. -/
theorem c4_success_increments_by_one (store : Store) (now : Nat) (js : Nat → Nat)
    (keys : List String) (call : String → List ChatMessage → CallResult)
    (req : Request) (msgs : List ChatMessage) (d : UpstreamData) (r : String)
    (hallow : (checkRateLimit store req).allowed = true)
    (hm : req.messages = some msgs)
    (hok : (fetchWithRotatedKey keys js call (mkChatHistory msgs)).result = Except.ok d)
    (hrep : d.reply = some r) (hr : r ≠ "") :
    (POST store now js keys call req).response = ⟨"assistant", r, 200⟩
    ∧ entryCount ((POST store now js keys call req).store (rlKey req))
        = entryCount (store (rlKey req)) + 1
    ∧ ((checkRateLimit store req).new = true →
        (POST store now js keys call req).store (rlKey req)
          = some ⟨1, some (now + WINDOW_EX)⟩)
    ∧ ((checkRateLimit store req).new = false →
        ∀ en, store (rlKey req) = some en →
          (POST store now js keys call req).store (rlKey req)
            = some ⟨en.count + 1, en.expiry⟩) := by
  have hfalsy : jsStrFalsy d.reply = false := by simp [jsStrFalsy, hrep, hr]
  rw [POST_of_reply store now js keys call req msgs d hallow hm hok hfalsy]
  refine ⟨by simp [hrep], ?_, ?_, ?_⟩
  · cases hn : (checkRateLimit store req).new with
    | true =>
      have h0 := checkRateLimit_new_count_zero store req hn
      rw [h0]
      simp [hn, redisSetEx, entryCount]
    | false =>
      simp only [hn, Bool.false_eq_true, if_false, redisIncr, if_pos rfl]
      cases hrec : store (rlKey req) with
      | none => simp [entryCount, hrec]
      | some en => simp [entryCount, hrec]
  · intro hn
    simp [hn, redisSetEx]
  · intro hn en hrec
    simp [hn, redisIncr, hrec]

theorem c4_witness :
    (POST (fun _ => none) 0 (fun _ => 0) ["K1"] (fun _ _ => CallResult.ok ⟨some "Hello"⟩)
        ⟨none, some [⟨"user", "hi"⟩]⟩).response = ⟨"assistant", "Hello", 200⟩
    ∧ entryCount ((POST (fun _ => none) 0 (fun _ => 0) ["K1"]
        (fun _ _ => CallResult.ok ⟨some "Hello"⟩)
        ⟨none, some [⟨"user", "hi"⟩]⟩).store (rlKey ⟨none, some [⟨"user", "hi"⟩]⟩))
        = entryCount ((fun _ => none : Store) (rlKey ⟨none, some [⟨"user", "hi"⟩]⟩)) + 1
    ∧ ((checkRateLimit (fun _ => none) ⟨none, some [⟨"user", "hi"⟩]⟩).new = true →
        (POST (fun _ => none) 0 (fun _ => 0) ["K1"] (fun _ _ => CallResult.ok ⟨some "Hello"⟩)
          ⟨none, some [⟨"user", "hi"⟩]⟩).store (rlKey ⟨none, some [⟨"user", "hi"⟩]⟩)
          = some ⟨1, some (0 + WINDOW_EX)⟩)
    ∧ ((checkRateLimit (fun _ => none) ⟨none, some [⟨"user", "hi"⟩]⟩).new = false →
        ∀ en, (fun _ => none : Store) (rlKey ⟨none, some [⟨"user", "hi"⟩]⟩) = some en →
          (POST (fun _ => none) 0 (fun _ => 0) ["K1"] (fun _ _ => CallResult.ok ⟨some "Hello"⟩)
            ⟨none, some [⟨"user", "hi"⟩]⟩).store (rlKey ⟨none, some [⟨"user", "hi"⟩]⟩)
            = some ⟨en.count + 1, en.expiry⟩) :=
  c4_success_increments_by_one (fun _ => none) 0 (fun _ => 0) ["K1"]
    (fun _ _ => CallResult.ok ⟨some "Hello"⟩) ⟨none, some [⟨"user", "hi"⟩]⟩
    [⟨"user", "hi"⟩] ⟨some "Hello"⟩ "Hello" rfl rfl rfl rfl (by decide)

/-- C5: a client at or over `IP_LIMIT` is denied: 429 with the quota
message, the store unchanged at every key, and no upstream attempt; and
`allowed = true` is only ever granted while the stored count is strictly
below `IP_LIMIT`, so a committed request can never push it past the limit. -/
theorem c5_limit_denies_and_preserves (store : Store) (now : Nat) (js : Nat → Nat)
    (keys : List String) (call : String → List ChatMessage → CallResult)
    (req : Request) (en : Entry)
    (h1 : store (rlKey req) = some en) (h2 : IP_LIMIT ≤ en.count) :
    (POST store now js keys call req).response
      = ⟨"error", "AI usage limit reached. Get full access when we launch.", 429⟩
    ∧ (∀ k, (POST store now js keys call req).store k = store k)
    ∧ (POST store now js keys call req).upstreamAttempts = []
    ∧ (∀ (s : Store) (r : Request),
        (checkRateLimit s r).allowed = true → entryCount (s (rlKey r)) < IP_LIMIT) := by
  have hdenied : (checkRateLimit store req).allowed = false := by
    unfold checkRateLimit
    simp [h1, jsGE, h2]
  rw [POST_of_denied store now js keys call req hdenied]
  exact ⟨rfl, fun k => rfl, rfl, fun s r h => checkRateLimit_allowed_lt s r h⟩

theorem c5_witness :
    (POST (fun k => if k = "AIDemoUsage:" then some ⟨100, some 7⟩ else none) 0 (fun _ => 0)
        ["K1"] (fun _ _ => CallResult.ok ⟨some "Hello"⟩) ⟨none, some []⟩).response
      = ⟨"error", "AI usage limit reached. Get full access when we launch.", 429⟩
    ∧ (∀ k, (POST (fun k => if k = "AIDemoUsage:" then some ⟨100, some 7⟩ else none) 0
        (fun _ => 0) ["K1"] (fun _ _ => CallResult.ok ⟨some "Hello"⟩) ⟨none, some []⟩).store k
      = (fun k => if k = "AIDemoUsage:" then some ⟨100, some 7⟩ else none : Store) k)
    ∧ (POST (fun k => if k = "AIDemoUsage:" then some ⟨100, some 7⟩ else none) 0 (fun _ => 0)
        ["K1"] (fun _ _ => CallResult.ok ⟨some "Hello"⟩) ⟨none, some []⟩).upstreamAttempts = []
    ∧ (∀ (s : Store) (r : Request),
        (checkRateLimit s r).allowed = true → entryCount (s (rlKey r)) < IP_LIMIT) :=
  c5_limit_denies_and_preserves
    (fun k => if k = "AIDemoUsage:" then some ⟨100, some 7⟩ else none) 0 (fun _ => 0)
    ["K1"] (fun _ _ => CallResult.ok ⟨some "Hello"⟩) ⟨none, some []⟩ ⟨100, some 7⟩
    (by decide) (by decide)

/-- C6: the trial order is a permutation of the pool; the attempted keys are
an initial segment of that order (sequential, stopping at the first
success), so with a duplicate-free pool no key is tried twice, and at most
one of the attempted calls succeeds. -/
theorem c6_dispatch_permutation (keys : List String) (js : Nat → Nat)
    (call : String → List ChatMessage → CallResult) (msgs : List ChatMessage) :
    List.Perm (shuffle keys js) keys
    ∧ (fetchWithRotatedKey keys js call msgs).attempts <+: shuffle keys js
    ∧ (keys.Nodup → (fetchWithRotatedKey keys js call msgs).attempts.Nodup)
    ∧ (fetchWithRotatedKey keys js call msgs).attempts.countP
        (fun k => isOkCall (call k msgs)) ≤ 1 := by
  refine ⟨shuffle_perm keys js, fetchLoop_attempts_front call msgs (shuffle keys js), ?_,
    fetchLoop_succ_le_one call msgs (shuffle keys js)⟩
  intro hnd
  have hsh : (shuffle keys js).Nodup := ((shuffle_perm keys js).nodup_iff).mpr hnd
  exact hsh.sublist (fetchLoop_attempts_front call msgs (shuffle keys js)).sublist

theorem c6_witness :
    (fetchWithRotatedKey ["K1", "K2", "K3"] (fun i => i)
        (fun _ _ => CallResult.fail "x") []).attempts.Nodup :=
  (c6_dispatch_permutation ["K1", "K2", "K3"] (fun i => i)
      (fun _ _ => CallResult.fail "x") []).2.2.1 (by decide)

/-- C7 (counterexample): the per-key failure log line embeds the credential
secret itself, and the thrown error is one fixed string independent of the
per-credential causes — it carries no cause list. -/
theorem c7_counterexample :
    (fetchWithRotatedKey ["SECRET_A"] (fun _ => 0)
        (fun _ _ => CallResult.fail "boom") []).logs
      = ["Key failed: " ++ "SECRET_A" ++ ", retrying... " ++ "boom"]
    ∧ (fetchWithRotatedKey ["SECRET_A"] (fun _ => 0)
        (fun _ _ => CallResult.fail "boom") []).result
      = (fetchWithRotatedKey ["SECRET_A"] (fun _ => 0)
        (fun _ _ => CallResult.fail "zap") []).result :=
  ⟨rfl, rfl⟩

/-- C7 (amended): when every credential fails, dispatch throws the fixed
message `All keys failed. Please try again later.` carrying no
per-credential causes, while each per-credential failure is logged with a
line containing the credential secret itself followed by the cause. -/
theorem c7_amended_fixed_error_leaky_logs (keys : List String) (js : Nat → Nat)
    (call : String → List ChatMessage → CallResult) (msgs : List ChatMessage)
    (cause : String → String)
    (h : ∀ k, call k msgs = CallResult.fail (cause k)) :
    (fetchWithRotatedKey keys js call msgs).result
      = Except.error "All keys failed. Please try again later."
    ∧ (fetchWithRotatedKey keys js call msgs).logs
      = (shuffle keys js).map
          (fun k => "Key failed: " ++ k ++ ", retrying... " ++ cause k) := by
  unfold fetchWithRotatedKey
  suffices H : ∀ ks : List String,
      (fetchLoop call msgs ks).result
        = Except.error "All keys failed. Please try again later."
      ∧ (fetchLoop call msgs ks).logs
        = ks.map (fun k => "Key failed: " ++ k ++ ", retrying... " ++ cause k) from
    H (shuffle keys js)
  intro ks
  induction ks with
  | nil => exact ⟨rfl, rfl⟩
  | cons k t ih =>
    simp only [fetchLoop, h k, List.map_cons]
    exact ⟨ih.1, by rw [ih.2]⟩

theorem c7_amended_witness :
    (fetchWithRotatedKey ["SECRET_A", "SECRET_B"] (fun i => i)
        (fun _ _ => CallResult.fail "boom") []).result
      = Except.error "All keys failed. Please try again later."
    ∧ (fetchWithRotatedKey ["SECRET_A", "SECRET_B"] (fun i => i)
        (fun _ _ => CallResult.fail "boom") []).logs
      = (shuffle ["SECRET_A", "SECRET_B"] (fun i => i)).map
          (fun k => "Key failed: " ++ k ++ ", retrying... " ++ (fun _ => "boom") k) :=
  c7_amended_fixed_error_leaky_logs ["SECRET_A", "SECRET_B"] (fun i => i)
    (fun _ _ => CallResult.fail "boom") [] (fun _ => "boom") (fun _ => rfl)

/-- C8 (counterexample): a 2xx reply lacking an assistant message ends the
key loop as a success — the second credential is never tried — and the
gateway surfaces `No response received` to the caller. -/
theorem c8_counterexample :
    (fetchWithRotatedKey ["K1", "K2"] (fun i => i)
        (fun k _ => if k = "K1" then CallResult.ok ⟨none⟩ else CallResult.ok ⟨some "Hello"⟩)
        []).attempts = ["K1"]
    ∧ (fetchWithRotatedKey ["K1", "K2"] (fun i => i)
        (fun k _ => if k = "K1" then CallResult.ok ⟨none⟩ else CallResult.ok ⟨some "Hello"⟩)
        []).result = Except.ok ⟨none⟩
    ∧ (POST (fun _ => none) 0 (fun i => i) ["K1", "K2"]
        (fun k _ => if k = "K1" then CallResult.ok ⟨none⟩ else CallResult.ok ⟨some "Hello"⟩)
        ⟨none, some [⟨"user", "hi"⟩]⟩).response
      = ⟨"error", "No response received", 200⟩ :=
  ⟨rfl, rfl, rfl⟩

/-- C8 (amended): only a thrown call (transport error / non-2xx) is
recovered by moving to the next credential; a 2xx reply lacking an
assistant message is treated as dispatch success — the loop stops after
that key — and the gateway answers the caller `No response received`
(status 200) with no quota commit. -/
theorem c8_amended_empty_reply_stops (keys : List String) (js : Nat → Nat)
    (call : String → List ChatMessage → CallResult) (msgs : List ChatMessage)
    (k : String) (ks : List String) (c : String) :
    (shuffle keys js = k :: ks → call k msgs = CallResult.ok ⟨none⟩ →
      (fetchWithRotatedKey keys js call msgs).attempts = [k]
      ∧ (fetchWithRotatedKey keys js call msgs).result = Except.ok ⟨none⟩)
    ∧ (call k msgs = CallResult.fail c →
      (fetchLoop call msgs (k :: ks)).attempts = k :: (fetchLoop call msgs ks).attempts
      ∧ (fetchLoop call msgs (k :: ks)).result = (fetchLoop call msgs ks).result)
    ∧ (∀ (store : Store) (now : Nat) (req : Request) (m : List ChatMessage) (d : UpstreamData),
        (checkRateLimit store req).allowed = true → req.messages = some m →
        (fetchWithRotatedKey keys js call (mkChatHistory m)).result = Except.ok d →
        d.reply = none →
        (POST store now js keys call req).response = ⟨"error", "No response received", 200⟩
        ∧ ∀ q, (POST store now js keys call req).store q = store q) := by
  refine ⟨?_, ?_, ?_⟩
  · intro hsh hcall
    unfold fetchWithRotatedKey
    rw [hsh]
    simp [fetchLoop, hcall]
  · intro hcall
    simp [fetchLoop, hcall]
  · intro store now req m d hallow hm hok hrep
    have hfalsy : jsStrFalsy d.reply = true := by simp [jsStrFalsy, hrep]
    rw [POST_of_empty_reply store now js keys call req m d hallow hm hok hfalsy]
    exact ⟨rfl, fun q => rfl⟩

theorem c8_amended_witness :
    (fetchWithRotatedKey ["K1", "K2"] (fun i => i)
        (fun k _ => if k = "K1" then CallResult.ok ⟨none⟩ else CallResult.ok ⟨some "Hello"⟩)
        []).attempts = ["K1"]
    ∧ (fetchWithRotatedKey ["K1", "K2"] (fun i => i)
        (fun k _ => if k = "K1" then CallResult.ok ⟨none⟩ else CallResult.ok ⟨some "Hello"⟩)
        []).result = Except.ok ⟨none⟩ :=
  (c8_amended_empty_reply_stops ["K1", "K2"] (fun i => i)
      (fun k _ => if k = "K1" then CallResult.ok ⟨none⟩ else CallResult.ok ⟨some "Hello"⟩)
      [] "K1" ["K2"] "unused").1 (by decide) (by decide)

/-- C9: for every allowed request with a messages array, the conversation
sent upstream is the fixed system prompt followed by the last
`min 5 length` request messages — a suffix of the original conversation, so
the newest messages are kept in order and conversations of at most 5
messages pass through whole. -/
theorem c9_augment_truncate (store : Store) (now : Nat) (js : Nat → Nat)
    (keys : List String) (call : String → List ChatMessage → CallResult)
    (req : Request) (msgs : List ChatMessage)
    (hallow : (checkRateLimit store req).allowed = true)
    (hm : req.messages = some msgs) :
    (POST store now js keys call req).sent
      = some (systemPrompt :: msgs.drop (msgs.length - 5))
    ∧ msgs.drop (msgs.length - 5) <:+ msgs
    ∧ (msgs.drop (msgs.length - 5)).length = min 5 msgs.length
    ∧ (msgs.length ≤ 5 → msgs.drop (msgs.length - 5) = msgs) := by
  refine ⟨?_, List.drop_suffix _ _, ?_, ?_⟩
  · cases hres : (fetchWithRotatedKey keys js call (mkChatHistory msgs)).result with
    | error e =>
      rw [POST_of_dispatch_error store now js keys call req msgs e hallow hm hres]
      rfl
    | ok d =>
      cases hfr : jsStrFalsy d.reply with
      | true =>
        rw [POST_of_empty_reply store now js keys call req msgs d hallow hm hres hfr]
        rfl
      | false =>
        rw [POST_of_reply store now js keys call req msgs d hallow hm hres hfr]
        rfl
  · rw [List.length_drop]
    omega
  · intro h
    have h0 : msgs.length - 5 = 0 := by omega
    rw [h0, List.drop_zero]

theorem c9_witness :
    (POST (fun _ => none) 0 (fun _ => 0) ["K1"] (fun _ _ => CallResult.ok ⟨some "Hello"⟩)
        ⟨none, some [⟨"user", "hi"⟩]⟩).sent
      = some (systemPrompt :: ([⟨"user", "hi"⟩] : List ChatMessage).drop
          (([⟨"user", "hi"⟩] : List ChatMessage).length - 5))
    ∧ ([⟨"user", "hi"⟩] : List ChatMessage).drop
        (([⟨"user", "hi"⟩] : List ChatMessage).length - 5) <:+ [⟨"user", "hi"⟩]
    ∧ (([⟨"user", "hi"⟩] : List ChatMessage).drop
        (([⟨"user", "hi"⟩] : List ChatMessage).length - 5)).length
      = min 5 ([⟨"user", "hi"⟩] : List ChatMessage).length
    ∧ (([⟨"user", "hi"⟩] : List ChatMessage).length ≤ 5 →
        ([⟨"user", "hi"⟩] : List ChatMessage).drop
          (([⟨"user", "hi"⟩] : List ChatMessage).length - 5) = [⟨"user", "hi"⟩]) :=
  c9_augment_truncate (fun _ => none) 0 (fun _ => 0) ["K1"]
    (fun _ _ => CallResult.ok ⟨some "Hello"⟩) ⟨none, some [⟨"user", "hi"⟩]⟩
    [⟨"user", "hi"⟩] rfl rfl

/-- C10: the quota bucket is keyed by the first comma-separated entry of
`x-forwarded-for`, trimmed: a header `a,b` with no comma in `a` yields
`trim a`; a missing header yields the empty string, so every header-less
request shares the one `AIDemoUsage:` record. -/
theorem c10_client_identifier :
    (∀ m, getIP ⟨none, m⟩ = "")
    ∧ (∀ (a b : String) (m : Option (List ChatMessage)), ',' ∉ a.data →
        getIP ⟨some (a ++ "," ++ b), m⟩ = jsTrim a)
    ∧ (∀ (a : String) (m : Option (List ChatMessage)), ',' ∉ a.data →
        getIP ⟨some a, m⟩ = jsTrim a)
    ∧ (∀ r₁ r₂ : Request, r₁.xForwardedFor = none → r₂.xForwardedFor = none →
        rlKey r₁ = rlKey r₂) := by
  refine ⟨fun m => rfl, ?_, ?_, ?_⟩
  · intro a b m h
    show jsTrim ⟨splitFirst ',' ((a ++ "," ++ b).data)⟩ = jsTrim a
    have hd : (a ++ "," ++ b).data = a.data ++ ',' :: b.data := by
      simp [String.data_append]
    rw [hd, splitFirst_append a.data b.data h]
  · intro a m h
    show jsTrim ⟨splitFirst ',' a.data⟩ = jsTrim a
    rw [splitFirst_of_not_mem a.data h]
  · intro r₁ r₂ h₁ h₂
    cases r₁
    cases r₂
    simp only at h₁ h₂
    subst h₁
    subst h₂
    rfl

theorem c10_witness :
    getIP ⟨some (" 1.2.3.4 " ++ "," ++ " 5.6.7.8"), none⟩ = jsTrim " 1.2.3.4 "
    ∧ rlKey ⟨none, none⟩ = rlKey ⟨none, some []⟩ :=
  ⟨(c10_client_identifier).2.1 " 1.2.3.4 " " 5.6.7.8" none (by decide),
   (c10_client_identifier).2.2.2 ⟨none, none⟩ ⟨none, some []⟩ rfl rfl⟩

end Nova
